import Mathlib

/-!
Shallow embedding of `volatility_mcp_server.py`, the single source file of the
Volatility-MCP-Server repository.  Every exposed tool of the server is modelled
as a pure Lean function over an explicit environment `Env` that answers the
operating-system calls the Python code makes (`os.path.isfile`, `os.path.isdir`,
`os.path.normpath`, `os.makedirs`, `os.listdir`, `os.walk`, `os.path.getsize`,
`os.getcwd`, `os.path.join`, and `asyncio.create_subprocess_exec`).  The result
of an operation is its returned string together with a trace of the command
vectors it handed to the subprocess layer and of the directories it asked
`os.makedirs` to create, so that "no external process is invoked" is a statement
about the trace.
-/

namespace VolatilityMCP

/-- Outcome of `asyncio.create_subprocess_exec` + `communicate` for one command:
either the child completed with a return code and captured stdout/stderr byte
strings, or an exception was raised (tool missing, permission denied, ...) whose
`str(e)` rendering is recorded. -/
inductive SpawnOutcome where
  | completed (returncode : Int) (stdout stderr : List Nat)
  | raised (message : String)
deriving DecidableEq

/-- One `(root, dirs, files)` triple produced by `os.walk`. -/
structure WalkEntry where
  root : String
  dirs : List String
  files : List String
deriving DecidableEq

/-- The ambient operating system, as consulted by the server: the configuration
constants computed at import time (`sys.executable`, the normalized install
directory, the joined path of `vol.py`) and the behaviour of each OS call the
code makes.  `makedirs` models `os.makedirs` (recursive directory creation),
returning `Except.error (str e)` when creation raises. -/
structure Env where
  VOLATILITY_PYTHON : String
  VOLATILITY_SCRIPT : String
  VOLATILITY_DIR : String
  normpath : String → String
  getcwd : String
  isFile : String → Bool
  isDir : String → Bool
  pathExists : String → Bool
  makedirs : String → Except String Unit
  listdir : String → List String
  getsize : String → Nat
  joinPath : String → String → String
  walk : String → List WalkEntry
  spawn : List String → String → SpawnOutcome

/-- The Unicode replacement character U+FFFD, the placeholder that
`bytes.decode('utf-8', errors='replace')` substitutes for invalid bytes. -/
def replacementChar : Char := Char.ofNat 0xFFFD

/-- A UTF-8 continuation byte: `0x80 ≤ b ≤ 0xBF`. -/
def isCont (b : Nat) : Bool := decide (0x80 ≤ b ∧ b ≤ 0xBF)

/-- Valid first continuation byte after a three-byte lead `b`
(excluding overlong encodings and surrogates, as CPython does). -/
def cont3ok (b c : Nat) : Bool :=
  if b = 0xE0 then decide (0xA0 ≤ c ∧ c ≤ 0xBF)
  else if b = 0xED then decide (0x80 ≤ c ∧ c ≤ 0x9F)
  else isCont c

/-- Valid first continuation byte after a four-byte lead `b`
(excluding overlong encodings and code points beyond U+10FFFF). -/
def cont4ok (b c : Nat) : Bool :=
  if b = 0xF0 then decide (0x90 ≤ c ∧ c ≤ 0xBF)
  else if b = 0xF4 then decide (0x80 ≤ c ∧ c ≤ 0x8F)
  else isCont c

/-- UTF-8 decoding with `errors='replace'`: each maximal subpart of an
ill-formed sequence becomes one U+FFFD, matching `bytes.decode('utf-8',
errors='replace')` in CPython. -/
def utf8DecodeReplace : List Nat → List Char
  | [] => []
  | b :: rest =>
    if b < 0x80 then
      Char.ofNat b :: utf8DecodeReplace rest
    else if decide (0xC2 ≤ b ∧ b ≤ 0xDF) then
      match rest with
      | [] => [replacementChar]
      | c1 :: rest1 =>
        if isCont c1 then
          Char.ofNat ((b - 0xC0) * 64 + (c1 - 0x80)) :: utf8DecodeReplace rest1
        else
          replacementChar :: utf8DecodeReplace (c1 :: rest1)
    else if decide (0xE0 ≤ b ∧ b ≤ 0xEF) then
      match rest with
      | [] => [replacementChar]
      | c1 :: rest1 =>
        if cont3ok b c1 then
          match rest1 with
          | [] => [replacementChar]
          | c2 :: rest2 =>
            if isCont c2 then
              Char.ofNat ((b - 0xE0) * 4096 + (c1 - 0x80) * 64 + (c2 - 0x80)) ::
                utf8DecodeReplace rest2
            else
              replacementChar :: utf8DecodeReplace (c2 :: rest2)
        else
          replacementChar :: utf8DecodeReplace (c1 :: rest1)
    else if decide (0xF0 ≤ b ∧ b ≤ 0xF4) then
      match rest with
      | [] => [replacementChar]
      | c1 :: rest1 =>
        if cont4ok b c1 then
          match rest1 with
          | [] => [replacementChar]
          | c2 :: rest2 =>
            if isCont c2 then
              match rest2 with
              | [] => [replacementChar]
              | c3 :: rest3 =>
                if isCont c3 then
                  Char.ofNat ((b - 0xF0) * 262144 + (c1 - 0x80) * 4096 +
                      (c2 - 0x80) * 64 + (c3 - 0x80)) :: utf8DecodeReplace rest3
                else
                  replacementChar :: utf8DecodeReplace (c3 :: rest3)
            else
              replacementChar :: utf8DecodeReplace (c2 :: rest2)
        else
          replacementChar :: utf8DecodeReplace (c1 :: rest1)
    else
      replacementChar :: utf8DecodeReplace rest

/-- `bytes.decode('utf-8', errors='replace')` as a `String`. -/
def decodeUtf8Replace (bs : List Nat) : String := ⟨utf8DecodeReplace bs⟩

/-- The observable result of one server operation: the string it returns, the
command vectors it passed to `create_subprocess_exec`, and the directories it
passed to `os.makedirs`. -/
structure RunResult where
  output : String
  spawned : List (List String)
  mkdirs : List String
deriving DecidableEq

/-- `run_volatility(cmd_args, cwd)`: prepend `[VOLATILITY_PYTHON,
VOLATILITY_SCRIPT]`, spawn, and convert every outcome to a string —
`stdout` decoded on exit code 0, `"Error running Volatility command: <stderr>"`
on a non-zero exit code, `"Exception running Volatility: <str(e)>"` when the
spawn/await raises. -/
def run_volatility (env : Env) (cmd_args : List String) (cwd : String) : RunResult :=
  let cmd := env.VOLATILITY_PYTHON :: env.VOLATILITY_SCRIPT :: cmd_args
  match env.spawn cmd cwd with
  | .raised e => ⟨"Exception running Volatility: " ++ e, [cmd], []⟩
  | .completed rc out err =>
    if rc ≠ 0 then
      ⟨"Error running Volatility command: " ++ decodeUtf8Replace err, [cmd], []⟩
    else
      ⟨decodeUtf8Replace out, [cmd], []⟩

/-- The error string every image-requiring tool returns when the normalized
path is not an existing regular file. -/
def fileNotFoundMsg (p : String) : String :=
  "Error: Memory dump file not found at " ++ p

/-- `list_available_plugins()`: `run_volatility(["-h"])`. -/
def list_available_plugins (env : Env) : RunResult :=
  run_volatility env ["-h"] env.VOLATILITY_DIR

/-- `get_image_info(memory_dump_path)`. -/
def get_image_info (env : Env) (memory_dump_path : String) : RunResult :=
  let p := env.normpath memory_dump_path
  if env.isFile p = false then ⟨fileNotFoundMsg p, [], []⟩
  else run_volatility env ["-f", p, "windows.info.Info"] env.VOLATILITY_DIR

/-- `run_pstree(memory_dump_path)`. -/
def run_pstree (env : Env) (memory_dump_path : String) : RunResult :=
  let p := env.normpath memory_dump_path
  if env.isFile p = false then ⟨fileNotFoundMsg p, [], []⟩
  else run_volatility env ["-f", p, "windows.pstree.PsTree"] env.VOLATILITY_DIR

/-- `run_pslist(memory_dump_path)`. -/
def run_pslist (env : Env) (memory_dump_path : String) : RunResult :=
  let p := env.normpath memory_dump_path
  if env.isFile p = false then ⟨fileNotFoundMsg p, [], []⟩
  else run_volatility env ["-f", p, "windows.pslist.PsList"] env.VOLATILITY_DIR

/-- `run_psscan(memory_dump_path)`. -/
def run_psscan (env : Env) (memory_dump_path : String) : RunResult :=
  let p := env.normpath memory_dump_path
  if env.isFile p = false then ⟨fileNotFoundMsg p, [], []⟩
  else run_volatility env ["-f", p, "windows.psscan.PsScan"] env.VOLATILITY_DIR

/-- `run_netscan(memory_dump_path)`. -/
def run_netscan (env : Env) (memory_dump_path : String) : RunResult :=
  let p := env.normpath memory_dump_path
  if env.isFile p = false then ⟨fileNotFoundMsg p, [], []⟩
  else run_volatility env ["-f", p, "windows.netscan.NetScan"] env.VOLATILITY_DIR

/-- The tail of `run_malfind` once the dump directory (normalized, truthy) is
known to exist or has been created: run the tool with `--dump-dir`, then, when
the (still truthy) directory exists and its listing is non-empty, append the
one-line dump-count summary.  `createdDirs` records the `os.makedirs` calls
made before this point. -/
def malfindInvoke (env : Env) (p d : String) (createdDirs : List String) : RunResult :=
  let r := run_volatility env ["-f", p, "windows.malfind.Malfind", "--dump-dir", d]
      env.VOLATILITY_DIR
  if d ≠ "" ∧ env.pathExists d = true then
    let dumped_files := env.listdir d
    if dumped_files ≠ [] then
      ⟨r.output ++ "\n\nDumped " ++ toString dumped_files.length ++
        " suspicious memory sections to " ++ d, r.spawned, createdDirs⟩
    else ⟨r.output, r.spawned, createdDirs⟩
  else ⟨r.output, r.spawned, createdDirs⟩

/-- `run_malfind(memory_dump_path, dump_dir=None)`.  A truthy `dump_dir`
(neither `None` nor `""`) is normalized, created when absent (short-circuiting
on a creation error), and passed as `--dump-dir`; a falsy one leaves the
command unchanged and skips the post-hoc listing (the rebound variable stays
falsy). -/
def run_malfind (env : Env) (memory_dump_path : String) (dump_dir : Option String) :
    RunResult :=
  let p := env.normpath memory_dump_path
  if env.isFile p = false then ⟨fileNotFoundMsg p, [], []⟩
  else
    match dump_dir with
    | none =>
      run_volatility env ["-f", p, "windows.malfind.Malfind"] env.VOLATILITY_DIR
    | some d0 =>
      if d0 = "" then
        run_volatility env ["-f", p, "windows.malfind.Malfind"] env.VOLATILITY_DIR
      else
        let d := env.normpath d0
        if env.isDir d = false then
          match env.makedirs d with
          | .error e => ⟨"Error creating dump directory: " ++ e, [], [d]⟩
          | .ok _ => malfindInvoke env p d [d]
        else malfindInvoke env p d []

/-- `run_cmdline(memory_dump_path)`. -/
def run_cmdline (env : Env) (memory_dump_path : String) : RunResult :=
  let p := env.normpath memory_dump_path
  if env.isFile p = false then ⟨fileNotFoundMsg p, [], []⟩
  else run_volatility env ["-f", p, "windows.cmdline.CmdLine"] env.VOLATILITY_DIR

/-- `run_dlllist(memory_dump_path, pid=None)`: `--pid <pid>` is appended
exactly when `pid` is not `None`. -/
def run_dlllist (env : Env) (memory_dump_path : String) (pid : Option Int) : RunResult :=
  let p := env.normpath memory_dump_path
  if env.isFile p = false then ⟨fileNotFoundMsg p, [], []⟩
  else
    let cmd_args := ["-f", p, "windows.dlllist.DllList"]
    let cmd_args := match pid with
      | some n => cmd_args ++ ["--pid", toString n]
      | none => cmd_args
    run_volatility env cmd_args env.VOLATILITY_DIR

/-- `run_handles(memory_dump_path, pid=None)`: `--pid <pid>` is appended
exactly when `pid` is not `None`. -/
def run_handles (env : Env) (memory_dump_path : String) (pid : Option Int) : RunResult :=
  let p := env.normpath memory_dump_path
  if env.isFile p = false then ⟨fileNotFoundMsg p, [], []⟩
  else
    let cmd_args := ["-f", p, "windows.handles.Handles"]
    let cmd_args := match pid with
      | some n => cmd_args ++ ["--pid", toString n]
      | none => cmd_args
    run_volatility env cmd_args env.VOLATILITY_DIR

/-- `run_filescan(memory_dump_path)`. -/
def run_filescan (env : Env) (memory_dump_path : String) : RunResult :=
  let p := env.normpath memory_dump_path
  if env.isFile p = false then ⟨fileNotFoundMsg p, [], []⟩
  else run_volatility env ["-f", p, "windows.filescan.FileScan"] env.VOLATILITY_DIR

/-- `run_memmap(memory_dump_path, pid)`: the pid flag is mandatory. -/
def run_memmap (env : Env) (memory_dump_path : String) (pid : Int) : RunResult :=
  let p := env.normpath memory_dump_path
  if env.isFile p = false then ⟨fileNotFoundMsg p, [], []⟩
  else
    run_volatility env ["-f", p, "windows.memmap.Memmap", "--pid", toString pid]
      env.VOLATILITY_DIR

/-- Tokenizer behind `pySplit`: accumulate the current (reversed) token,
emitting it at each whitespace run and at the end. -/
def pySplitAux : List Char → List Char → List String
  | [], acc => if acc = [] then [] else [⟨acc.reverse⟩]
  | c :: cs, acc =>
    if c.isWhitespace then
      if acc = [] then pySplitAux cs [] else ⟨acc.reverse⟩ :: pySplitAux cs []
    else pySplitAux cs (c :: acc)

/-- Python's `str.split()` with no separator: split on whitespace runs,
discarding empty tokens. -/
def pySplit (s : String) : List String := pySplitAux s.data []

/-- `run_custom_plugin(memory_dump_path, plugin_name, additional_args="")`:
the caller-supplied plugin name, then the whitespace-tokenized extra
arguments when the string is truthy. -/
def run_custom_plugin (env : Env) (memory_dump_path plugin_name additional_args : String) :
    RunResult :=
  let p := env.normpath memory_dump_path
  if env.isFile p = false then ⟨fileNotFoundMsg p, [], []⟩
  else
    let cmd_args := ["-f", p, plugin_name]
    let cmd_args := if additional_args ≠ "" then cmd_args ++ pySplit additional_args
      else cmd_args
    run_volatility env cmd_args env.VOLATILITY_DIR

/-- The fixed extension allow-list `memory_extensions`. -/
def memory_extensions : List String :=
  [".raw", ".vmem", ".dmp", ".mem", ".bin", ".img", ".001", ".dump"]

/-- Python's `str.lower()` (the filenames and extensions compared here are
ASCII, where lowercasing is characterwise). -/
def pyLower (s : String) : String := ⟨s.data.map Char.toLower⟩

/-- `any(file.lower().endswith(ext) for ext in memory_extensions)`;
`str.endswith` is suffix comparison. -/
def matchesExt (file : String) : Bool :=
  memory_extensions.any (fun ext => ext.data.isSuffixOf (pyLower file).data)

/-- Render `bytes / (1024*1024)` with two decimal places, as Python's
`f"{size_mb:.2f}"` does.  Because `bytes / 2**20` is an exact binary scaling,
the printed value is the exact rational `bytes*25 / 2**18` rounded to
hundredths with ties to even, which this computes in integers. -/
def formatSizeMB (bytes : Nat) : String :=
  let n := bytes * 25
  let d := 262144
  let q := n / d
  let r := n % d
  let hundredths :=
    if d < 2 * r then q + 1
    else if 2 * r < d then q
    else if q % 2 = 0 then q else q + 1
  let whole := hundredths / 100
  let frac := hundredths % 100
  toString whole ++ "." ++ (if frac < 10 then "0" else "") ++ toString frac

/-- The report line for one matching file: `f"{full_path} (Size: {size_mb:.2f} MB)"`
with `full_path = os.path.join(root, file)`. -/
def dumpEntryLine (env : Env) (root file : String) : String :=
  let full_path := env.joinPath root file
  full_path ++ " (Size: " ++ formatSizeMB (env.getsize full_path) ++ " MB)"

/-- The `memory_files` list accumulated by the `os.walk` loop of
`list_memory_dumps`: one formatted line per file whose lowercased name ends
with an allow-listed extension, in traversal order. -/
def memoryFilesOf (env : Env) (search_dir : String) : List String :=
  (env.walk search_dir).flatMap (fun entry =>
    entry.files.filterMap (fun file =>
      if matchesExt file then some (dumpEntryLine env entry.root file) else none))

/-- `list_memory_dumps(search_dir=None)`: a falsy argument (None or `""`) is
replaced by `os.getcwd()`; the resolved directory is normalized and must be an
existing directory; matching files are reported with sizes, or a
"no files found" message when none match. -/
def list_memory_dumps (env : Env) (search_dir : Option String) : String :=
  let sd0 := match search_dir with
    | none => env.getcwd
    | some s => if s = "" then env.getcwd else s
  let sd := env.normpath sd0
  if env.isDir sd = false then "Error: Directory not found at " ++ sd
  else
    let memory_files := memoryFilesOf env sd
    if memory_files = [] then "No memory dump files found in " ++ sd
    else "Found memory dump files:\n" ++ String.intercalate "\n" memory_files

/-- One lowercase hexadecimal digit. -/
def hexDigit (n : Nat) : Char :=
  if n < 10 then Char.ofNat (48 + n) else Char.ofNat (87 + n)

/-- Four lowercase hexadecimal digits, as in a JSON `\uXXXX` escape. -/
def u16Hex (n : Nat) : String :=
  ⟨[hexDigit (n / 4096 % 16), hexDigit (n / 256 % 16), hexDigit (n / 16 % 16),
    hexDigit (n % 16)]⟩

/-- Escaping of one character inside a JSON string literal, following
`json.dumps` with its default `ensure_ascii=True`: the two-character escapes
for `"` `\\` and control characters with short forms, `\uXXXX` for other
control or non-ASCII characters (a surrogate pair beyond U+FFFF), the
character itself otherwise. -/
def jsonEscapeChar (c : Char) : String :=
  if c = Char.ofNat 34 then "\\\""
  else if c = Char.ofNat 92 then "\\\\"
  else if c = Char.ofNat 10 then "\\n"
  else if c = Char.ofNat 9 then "\\t"
  else if c = Char.ofNat 13 then "\\r"
  else if c = Char.ofNat 8 then "\\b"
  else if c = Char.ofNat 12 then "\\f"
  else if c.toNat < 0x20 ∨ 0x7E < c.toNat then
    if c.toNat < 0x10000 then "\\u" ++ u16Hex c.toNat
    else
      let n := c.toNat - 0x10000
      "\\u" ++ u16Hex (0xD800 + n / 0x400) ++ "\\u" ++ u16Hex (0xDC00 + n % 0x400)
  else ⟨[c]⟩

/-- A JSON string literal for `s`. -/
def jsonStringLit (s : String) : String :=
  "\"" ++ String.join (s.data.map jsonEscapeChar) ++ "\""

/-- `json.dumps(xs, indent=2)` for a flat list of strings. -/
def jsonDumpsIndent2 (xs : List String) : String :=
  match xs with
  | [] => "[]"
  | _ =>
    "[\n" ++ String.intercalate ",\n" (xs.map (fun s => "  " ++ jsonStringLit s)) ++ "\n]"

/-- Drop leading whitespace characters from a character list. -/
def dropWs : List Char → List Char
  | [] => []
  | c :: cs => if c.isWhitespace then dropWs cs else c :: cs

/-- Python's `str.strip()`: remove leading and trailing whitespace. -/
def pyStrip (s : String) : String :=
  ⟨(dropWs (dropWs s.data).reverse).reverse⟩

/-- Splitter behind `splitLines`, carrying the current (reversed) line. -/
def splitLinesAux : List Char → List Char → List String
  | [], acc => [⟨acc.reverse⟩]
  | c :: cs, acc =>
    if c = Char.ofNat 10 then ⟨acc.reverse⟩ :: splitLinesAux cs []
    else splitLinesAux cs (c :: acc)

/-- Python's `str.split('\n')`. -/
def splitLines (s : String) : List String := splitLinesAux s.data []

/-- The line scan of `get_volatility_plugins`, over the list of lines and the
current `capture` flag: a line stripping to `"Plugins"` sets `capture` and is
skipped; a blank line while capturing breaks; any other line is appended
stripped when capturing. -/
def extractPluginsAux : List String → Bool → List String
  | [], _ => []
  | line :: rest, capture =>
    if pyStrip line = "Plugins" then extractPluginsAux rest true
    else if capture ∧ pyStrip line = "" then []
    else if capture then pyStrip line :: extractPluginsAux rest capture
    else extractPluginsAux rest capture

/-- The plugin names scraped from one help-banner text, via
`output.split('\n')`. -/
def extractPlugins (output : String) : List String :=
  extractPluginsAux (splitLines output) false

/-- `get_volatility_plugins()`: run `-h`, scrape the plugin names, and return
them as `json.dumps(plugins, indent=2)`. -/
def get_volatility_plugins (env : Env) : RunResult :=
  let r := run_volatility env ["-h"] env.VOLATILITY_DIR
  ⟨jsonDumpsIndent2 (extractPlugins r.output), r.spawned, r.mkdirs⟩

/-- `get_plugin_help(plugin)`: `run_volatility([plugin, "--help"])`. -/
def get_plugin_help (env : Env) (plugin : String) : RunResult :=
  run_volatility env [plugin, "--help"] env.VOLATILITY_DIR

/-! Concrete environments used to instantiate the theorems below. -/

/-- An environment where every path exists and the tool echoes `"hi"`. -/
def envOk : Env :=
  Env.mk "python" "vol.py" "voldir" id "cwd" (fun _ => true) (fun _ => true)
    (fun _ => true) (fun _ => Except.ok ()) (fun _ => []) (fun _ => 0)
    (fun a b => a ++ "/" ++ b) (fun _ => [])
    (fun _ _ => SpawnOutcome.completed 0 [104, 105] [])

/-- An environment where no path is a regular file. -/
def envNoFile : Env :=
  Env.mk "python" "vol.py" "voldir" id "cwd" (fun _ => false) (fun _ => true)
    (fun _ => true) (fun _ => Except.ok ()) (fun _ => []) (fun _ => 0)
    (fun a b => a ++ "/" ++ b) (fun _ => [])
    (fun _ _ => SpawnOutcome.completed 0 [104, 105] [])

/-- An environment whose tool exits 1 writing `"boom"` to stderr. -/
def envBoom : Env :=
  Env.mk "python" "vol.py" "voldir" id "cwd" (fun _ => true) (fun _ => true)
    (fun _ => true) (fun _ => Except.ok ()) (fun _ => []) (fun _ => 0)
    (fun a b => a ++ "/" ++ b) (fun _ => [])
    (fun _ _ => SpawnOutcome.completed 1 [] [98, 111, 111, 109])

/-- An environment whose tool cannot be spawned. -/
def envRaise : Env :=
  Env.mk "python" "vol.py" "voldir" id "cwd" (fun _ => true) (fun _ => true)
    (fun _ => true) (fun _ => Except.ok ()) (fun _ => []) (fun _ => 0)
    (fun a b => a ++ "/" ++ b) (fun _ => [])
    (fun _ _ => SpawnOutcome.raised "No such file or directory")

/-- An environment for the malfind dump-directory scenario: the dump directory
does not exist yet, creation succeeds, and afterwards it holds two files. -/
def envMalfind : Env :=
  Env.mk "python" "vol.py" "voldir" id "cwd" (fun _ => true) (fun _ => false)
    (fun _ => true) (fun _ => Except.ok ()) (fun _ => ["d1.dmp", "d2.dmp"]) (fun _ => 0)
    (fun a b => a ++ "/" ++ b) (fun _ => [])
    (fun _ _ => SpawnOutcome.completed 0 [111, 107] [])

/-- An environment where directory creation fails with a permission error. -/
def envMkdirFail : Env :=
  Env.mk "python" "vol.py" "voldir" id "cwd" (fun _ => true) (fun _ => false)
    (fun _ => true) (fun _ => Except.error "Permission denied") (fun _ => []) (fun _ => 0)
    (fun a b => a ++ "/" ++ b) (fun _ => [])
    (fun _ _ => SpawnOutcome.completed 0 [111, 107] [])

/-- An environment whose directory walk yields `a.dmp`, `b.txt`, `c.RAW`,
each of size one mebibyte. -/
def envScan : Env :=
  Env.mk "python" "vol.py" "voldir" id "cwd" (fun _ => true) (fun _ => true)
    (fun _ => true) (fun _ => Except.ok ()) (fun _ => []) (fun _ => 1048576)
    (fun a b => a ++ "/" ++ b)
    (fun _ => [WalkEntry.mk "r" [] ["a.dmp", "b.txt", "c.RAW"]])
    (fun _ _ => SpawnOutcome.completed 0 [] [])

/-- An environment where no directory exists. -/
def envNoDir : Env :=
  Env.mk "python" "vol.py" "voldir" id "cwd" (fun _ => true) (fun _ => false)
    (fun _ => true) (fun _ => Except.ok ()) (fun _ => []) (fun _ => 0)
    (fun a b => a ++ "/" ++ b) (fun _ => [])
    (fun _ _ => SpawnOutcome.completed 0 [] [])

/-- A synthetic help banner whose capture region contains a repeated
`"Plugins"` heading line. -/
def cexHelp : String := "Plugins\nalpha\nPlugins\nbeta\n\ngamma"

/-- The ASCII bytes of `cexHelp`. -/
def cexBytes : List Nat := cexHelp.data.map Char.toNat

/-- An environment whose tool prints `cexHelp` on stdout. -/
def envCex : Env :=
  Env.mk "python" "vol.py" "voldir" id "cwd" (fun _ => true) (fun _ => true)
    (fun _ => true) (fun _ => Except.ok ()) (fun _ => []) (fun _ => 0)
    (fun a b => a ++ "/" ++ b) (fun _ => [])
    (fun _ _ => SpawnOutcome.completed 0 cexBytes [])

/-! Helper lemmas shared by the claim theorems. -/

/-- `run_volatility` always hands exactly one command vector, with the
interpreter and the entry script prepended, to the subprocess layer. -/
theorem run_volatility_spawned (env : Env) (cmd_args : List String) (cwd : String) :
    (run_volatility env cmd_args cwd).spawned =
      [env.VOLATILITY_PYTHON :: env.VOLATILITY_SCRIPT :: cmd_args] := by
  cases hs : env.spawn (env.VOLATILITY_PYTHON :: env.VOLATILITY_SCRIPT :: cmd_args) cwd with
  | raised e => simp [run_volatility, hs]
  | completed rc out err => by_cases hrc : rc = 0 <;> simp [run_volatility, hs, hrc]

/-- `run_volatility` never creates directories. -/
theorem run_volatility_mkdirs (env : Env) (cmd_args : List String) (cwd : String) :
    (run_volatility env cmd_args cwd).mkdirs = [] := by
  cases hs : env.spawn (env.VOLATILITY_PYTHON :: env.VOLATILITY_SCRIPT :: cmd_args) cwd with
  | raised e => simp [run_volatility, hs]
  | completed rc out err => by_cases hrc : rc = 0 <;> simp [run_volatility, hs, hrc]

/-- The spawn trace of the malfind tail is the single `--dump-dir` command,
whatever the post-hoc listing does. -/
theorem malfindInvoke_spawned (env : Env) (p d : String) (createdDirs : List String) :
    (malfindInvoke env p d createdDirs).spawned =
      [[env.VOLATILITY_PYTHON, env.VOLATILITY_SCRIPT, "-f", p,
        "windows.malfind.Malfind", "--dump-dir", d]] := by
  unfold malfindInvoke
  by_cases h1 : d ≠ "" ∧ env.pathExists d = true <;>
    by_cases h2 : env.listdir d ≠ [] <;>
      simp [h1, h2, run_volatility_spawned]

/-- The directory-creation trace of the malfind tail is exactly the record it
was given. -/
theorem malfindInvoke_mkdirs (env : Env) (p d : String) (createdDirs : List String) :
    (malfindInvoke env p d createdDirs).mkdirs = createdDirs := by
  unfold malfindInvoke
  by_cases h1 : d ≠ "" ∧ env.pathExists d = true <;>
    by_cases h2 : env.listdir d ≠ [] <;>
      simp [h1, h2]

/-- Decoding the bytes of an ASCII character list is the identity. -/
theorem utf8DecodeReplace_ascii (l : List Char) (h : ∀ c ∈ l, c.toNat < 128) :
    utf8DecodeReplace (l.map Char.toNat) = l := by
  induction l with
  | nil => rfl
  | cons c cs ih =>
    have hc : c.toNat < 128 := h c (List.mem_cons_self c cs)
    have hcs : ∀ x ∈ cs, Char.toNat x < 128 := fun x hx => h x (List.mem_cons_of_mem c hx)
    simp only [List.map_cons]
    unfold utf8DecodeReplace
    simp [hc, Char.ofNat_toNat, ih hcs]

/-- `decodeUtf8Replace` inverts the byte rendering of ASCII strings. -/
theorem decodeUtf8Replace_ascii (s : String) (h : ∀ c ∈ s.data, c.toNat < 128) :
    decodeUtf8Replace (s.data.map Char.toNat) = s := by
  unfold decodeUtf8Replace
  rw [utf8DecodeReplace_ascii s.data h]

/-- C3: whenever the spawned child terminates with a non-zero exit code,
`run_volatility` returns exactly `"Error running Volatility command: "`
followed by the decoded stderr, and hence every substring of the decoded
stderr appears literally in the returned text. -/
theorem claim3_nonzero_exit_reports_stderr (env : Env) (cmd_args : List String)
    (cwd : String) (rc : Int) (out err : List Nat) (hrc : rc ≠ 0)
    (hs : env.spawn (env.VOLATILITY_PYTHON :: env.VOLATILITY_SCRIPT :: cmd_args) cwd =
      SpawnOutcome.completed rc out err) :
    (run_volatility env cmd_args cwd).output =
      "Error running Volatility command: " ++ decodeUtf8Replace err ∧
    ∀ s : String, s.data <:+: (decodeUtf8Replace err).data →
      s.data <:+: (run_volatility env cmd_args cwd).output.data := by
  have hout : (run_volatility env cmd_args cwd).output =
      "Error running Volatility command: " ++ decodeUtf8Replace err := by
    simp [run_volatility, hs, hrc]
  refine ⟨hout, fun s hsub => ?_⟩
  rw [hout, String.data_append]
  exact hsub.trans (List.suffix_append _ _).isInfix

/-- C3 witness: a child that exits 1 with stderr bytes `"boom"` produces the
diagnostic string containing the literal `"boom"`. -/
theorem claim3_witness :
    ((1 : Int) ≠ 0) ∧
    (run_volatility envBoom ["-f", "m.raw", "windows.pslist.PsList"] "voldir").output =
      "Error running Volatility command: boom" := by
  refine ⟨by decide, ?_⟩
  have h := (claim3_nonzero_exit_reports_stderr envBoom
    ["-f", "m.raw", "windows.pslist.PsList"] "voldir" 1 [] [98, 111, 111, 109]
    (by decide) rfl).1
  rw [h]
  decide

/-- C4: an exception raised while spawning or awaiting the child is caught and
converted into the returned string `"Exception running Volatility: <str(e)>"`;
`run_volatility` is a total function of the spawn outcome, so no fault
propagates. -/
theorem claim4_spawn_exception_caught (env : Env) (cmd_args : List String)
    (cwd : String) (e : String)
    (hs : env.spawn (env.VOLATILITY_PYTHON :: env.VOLATILITY_SCRIPT :: cmd_args) cwd =
      SpawnOutcome.raised e) :
    run_volatility env cmd_args cwd =
      ⟨"Exception running Volatility: " ++ e,
        [env.VOLATILITY_PYTHON :: env.VOLATILITY_SCRIPT :: cmd_args], []⟩ := by
  simp [run_volatility, hs]

/-- C4 witness: a tool that cannot be spawned yields the exception string. -/
theorem claim4_witness :
    run_volatility envRaise ["-h"] "voldir" =
      ⟨"Exception running Volatility: No such file or directory",
        [["python", "vol.py", "-h"]], []⟩ :=
  claim4_spawn_exception_caught envRaise ["-h"] "voldir" "No such file or directory" rfl

/-- C5: on exit code zero `run_volatility` returns the child's stdout decoded
with the replacing UTF-8 decoder; that decoding is the identity on (the byte
rendering of) ASCII text, and an invalid byte becomes the replacement
character U+FFFD instead of failing. -/
theorem claim5_zero_exit_returns_stdout (env : Env) (cmd_args : List String)
    (cwd : String) (out err : List Nat)
    (hs : env.spawn (env.VOLATILITY_PYTHON :: env.VOLATILITY_SCRIPT :: cmd_args) cwd =
      SpawnOutcome.completed 0 out err) :
    (run_volatility env cmd_args cwd).output = decodeUtf8Replace out ∧
    (∀ s : String, (∀ c ∈ s.data, c.toNat < 128) →
      decodeUtf8Replace (s.data.map Char.toNat) = s) ∧
    decodeUtf8Replace [255] = "�" := by
  refine ⟨by simp [run_volatility, hs], decodeUtf8Replace_ascii, by decide⟩

/-- C5 witness: a child that exits 0 echoing the bytes of `"hi"` makes
`run_volatility` return `"hi"` unchanged. -/
theorem claim5_witness :
    (run_volatility envOk ["-f", "m.raw", "windows.pslist.PsList"] "voldir").output = "hi" := by
  have h := (claim5_zero_exit_returns_stdout envOk
    ["-f", "m.raw", "windows.pslist.PsList"] "voldir" [104, 105] [] rfl).1
  rw [h]
  decide

/-- C1: every operation that requires a memory-image path returns
`"Error: Memory dump file not found at <normalized path>"` and spawns no
external process (and creates no directory) when the normalized path is not
an existing regular file. -/
theorem claim1_missing_image_short_circuits (env : Env) (p : String)
    (h : env.isFile (env.normpath p) = false) :
    get_image_info env p =
      ⟨"Error: Memory dump file not found at " ++ env.normpath p, [], []⟩ ∧
    run_pstree env p =
      ⟨"Error: Memory dump file not found at " ++ env.normpath p, [], []⟩ ∧
    run_pslist env p =
      ⟨"Error: Memory dump file not found at " ++ env.normpath p, [], []⟩ ∧
    run_psscan env p =
      ⟨"Error: Memory dump file not found at " ++ env.normpath p, [], []⟩ ∧
    run_netscan env p =
      ⟨"Error: Memory dump file not found at " ++ env.normpath p, [], []⟩ ∧
    (∀ dump_dir, run_malfind env p dump_dir =
      ⟨"Error: Memory dump file not found at " ++ env.normpath p, [], []⟩) ∧
    run_cmdline env p =
      ⟨"Error: Memory dump file not found at " ++ env.normpath p, [], []⟩ ∧
    (∀ pid, run_dlllist env p pid =
      ⟨"Error: Memory dump file not found at " ++ env.normpath p, [], []⟩) ∧
    (∀ pid, run_handles env p pid =
      ⟨"Error: Memory dump file not found at " ++ env.normpath p, [], []⟩) ∧
    run_filescan env p =
      ⟨"Error: Memory dump file not found at " ++ env.normpath p, [], []⟩ ∧
    (∀ pid, run_memmap env p pid =
      ⟨"Error: Memory dump file not found at " ++ env.normpath p, [], []⟩) ∧
    (∀ plugin_name additional_args, run_custom_plugin env p plugin_name additional_args =
      ⟨"Error: Memory dump file not found at " ++ env.normpath p, [], []⟩) := by
  refine ⟨?_, ?_, ?_, ?_, ?_, fun dump_dir => ?_, ?_, fun pid => ?_, fun pid => ?_, ?_,
    fun pid => ?_, fun plugin_name additional_args => ?_⟩ <;>
    simp [get_image_info, run_pstree, run_pslist, run_psscan, run_netscan, run_malfind,
      run_cmdline, run_dlllist, run_handles, run_filescan, run_memmap, run_custom_plugin,
      fileNotFoundMsg, h]

/-- C1 witness: in an environment with no existing files, `run_pslist` (and
`run_malfind` with a dump directory) return the not-found error with an empty
spawn trace. -/
theorem claim1_witness :
    envNoFile.isFile (envNoFile.normpath "m.raw") = false ∧
    run_pslist envNoFile "m.raw" =
      ⟨"Error: Memory dump file not found at m.raw", [], []⟩ ∧
    run_malfind envNoFile "m.raw" (some "dumps") =
      ⟨"Error: Memory dump file not found at m.raw", [], []⟩ := by
  have h := claim1_missing_image_short_circuits envNoFile "m.raw" rfl
  exact ⟨rfl, h.2.2.1, h.2.2.2.2.2.1 (some "dumps")⟩

/-- C2: every spawned argument vector starts with the interpreter and the
entry script, then `-f <normalized path>` when a memory image is required,
then the fixed subcommand (or the caller-supplied plugin name), then the
optional flags in the order dump directory / process identifier / free-form
additional arguments. -/
theorem claim2_argument_vector_shape (env : Env) (p : String)
    (h : env.isFile (env.normpath p) = true) :
    (list_available_plugins env).spawned =
      [[env.VOLATILITY_PYTHON, env.VOLATILITY_SCRIPT, "-h"]] ∧
    (get_image_info env p).spawned =
      [[env.VOLATILITY_PYTHON, env.VOLATILITY_SCRIPT, "-f", env.normpath p,
        "windows.info.Info"]] ∧
    (run_pstree env p).spawned =
      [[env.VOLATILITY_PYTHON, env.VOLATILITY_SCRIPT, "-f", env.normpath p,
        "windows.pstree.PsTree"]] ∧
    (run_pslist env p).spawned =
      [[env.VOLATILITY_PYTHON, env.VOLATILITY_SCRIPT, "-f", env.normpath p,
        "windows.pslist.PsList"]] ∧
    (run_psscan env p).spawned =
      [[env.VOLATILITY_PYTHON, env.VOLATILITY_SCRIPT, "-f", env.normpath p,
        "windows.psscan.PsScan"]] ∧
    (run_netscan env p).spawned =
      [[env.VOLATILITY_PYTHON, env.VOLATILITY_SCRIPT, "-f", env.normpath p,
        "windows.netscan.NetScan"]] ∧
    (run_malfind env p none).spawned =
      [[env.VOLATILITY_PYTHON, env.VOLATILITY_SCRIPT, "-f", env.normpath p,
        "windows.malfind.Malfind"]] ∧
    (∀ d, d ≠ "" → env.isDir (env.normpath d) = true →
      (run_malfind env p (some d)).spawned =
        [[env.VOLATILITY_PYTHON, env.VOLATILITY_SCRIPT, "-f", env.normpath p,
          "windows.malfind.Malfind", "--dump-dir", env.normpath d]]) ∧
    (run_cmdline env p).spawned =
      [[env.VOLATILITY_PYTHON, env.VOLATILITY_SCRIPT, "-f", env.normpath p,
        "windows.cmdline.CmdLine"]] ∧
    (∀ pid, (run_dlllist env p (some pid)).spawned =
      [[env.VOLATILITY_PYTHON, env.VOLATILITY_SCRIPT, "-f", env.normpath p,
        "windows.dlllist.DllList", "--pid", toString pid]]) ∧
    (∀ pid, (run_handles env p (some pid)).spawned =
      [[env.VOLATILITY_PYTHON, env.VOLATILITY_SCRIPT, "-f", env.normpath p,
        "windows.handles.Handles", "--pid", toString pid]]) ∧
    (run_filescan env p).spawned =
      [[env.VOLATILITY_PYTHON, env.VOLATILITY_SCRIPT, "-f", env.normpath p,
        "windows.filescan.FileScan"]] ∧
    (∀ pid, (run_memmap env p pid).spawned =
      [[env.VOLATILITY_PYTHON, env.VOLATILITY_SCRIPT, "-f", env.normpath p,
        "windows.memmap.Memmap", "--pid", toString pid]]) ∧
    (∀ plugin_name additional_args,
      (run_custom_plugin env p plugin_name additional_args).spawned =
        [[env.VOLATILITY_PYTHON, env.VOLATILITY_SCRIPT, "-f", env.normpath p,
          plugin_name] ++ pySplit additional_args]) := by
  refine ⟨?_, ?_, ?_, ?_, ?_, ?_, ?_, fun d hd hdir => ?_, ?_, fun pid => ?_,
    fun pid => ?_, ?_, fun pid => ?_, fun plugin_name additional_args => ?_⟩
  · simp [list_available_plugins, run_volatility_spawned]
  · simp [get_image_info, h, run_volatility_spawned]
  · simp [run_pstree, h, run_volatility_spawned]
  · simp [run_pslist, h, run_volatility_spawned]
  · simp [run_psscan, h, run_volatility_spawned]
  · simp [run_netscan, h, run_volatility_spawned]
  · simp [run_malfind, h, run_volatility_spawned]
  · simp [run_malfind, h, hd, hdir, malfindInvoke_spawned]
  · simp [run_cmdline, h, run_volatility_spawned]
  · simp [run_dlllist, h, run_volatility_spawned]
  · simp [run_handles, h, run_volatility_spawned]
  · simp [run_filescan, h, run_volatility_spawned]
  · simp [run_memmap, h, run_volatility_spawned]
  · by_cases ha : additional_args = ""
    · subst ha
      simp [run_custom_plugin, h, run_volatility_spawned, pySplit, pySplitAux]
    · simp [run_custom_plugin, h, ha, run_volatility_spawned]

/-- C2 witness: with an existing image `m.raw`, the vectors for the pslist,
malfind-with-dump-dir, and custom-plugin operations have the stated shape. -/
theorem claim2_witness :
    envOk.isFile (envOk.normpath "m.raw") = true ∧
    (run_pslist envOk "m.raw").spawned =
      [["python", "vol.py", "-f", "m.raw", "windows.pslist.PsList"]] ∧
    (run_malfind envOk "m.raw" (some "dumps")).spawned =
      [["python", "vol.py", "-f", "m.raw", "windows.malfind.Malfind",
        "--dump-dir", "dumps"]] ∧
    (run_custom_plugin envOk "m.raw" "windows.registry.hivelist.HiveList"
        " --offset 0x1000 ").spawned =
      [["python", "vol.py", "-f", "m.raw", "windows.registry.hivelist.HiveList",
        "--offset", "0x1000"]] := by
  have h := claim2_argument_vector_shape envOk "m.raw" rfl
  refine ⟨rfl, h.2.2.2.1, ?_, ?_⟩
  · have h2 := h.2.2.2.2.2.2.2.1 "dumps" (by decide) rfl
    rw [h2]
    decide
  · have h3 := h.2.2.2.2.2.2.2.2.2.2.2.2.2 "windows.registry.hivelist.HiveList"
      " --offset 0x1000 "
    rw [h3]
    decide

/-- C6: for `run_dlllist` and `run_handles` the `--pid <pid>` flag is appended
exactly when a pid is supplied, immediately after the fixed subcommand name;
the vector is a function of the operation and its parameters only, hence
deterministic. -/
theorem claim6_pid_flag_iff_supplied (env : Env) (p : String)
    (h : env.isFile (env.normpath p) = true) :
    (∀ pid, (run_dlllist env p (some pid)).spawned =
      [[env.VOLATILITY_PYTHON, env.VOLATILITY_SCRIPT, "-f", env.normpath p,
        "windows.dlllist.DllList", "--pid", toString pid]]) ∧
    (run_dlllist env p none).spawned =
      [[env.VOLATILITY_PYTHON, env.VOLATILITY_SCRIPT, "-f", env.normpath p,
        "windows.dlllist.DllList"]] ∧
    (∀ pid, (run_handles env p (some pid)).spawned =
      [[env.VOLATILITY_PYTHON, env.VOLATILITY_SCRIPT, "-f", env.normpath p,
        "windows.handles.Handles", "--pid", toString pid]]) ∧
    (run_handles env p none).spawned =
      [[env.VOLATILITY_PYTHON, env.VOLATILITY_SCRIPT, "-f", env.normpath p,
        "windows.handles.Handles"]] := by
  refine ⟨fun pid => ?_, ?_, fun pid => ?_, ?_⟩ <;>
    simp [run_dlllist, run_handles, h, run_volatility_spawned]

/-- C6 witness: with pid 4 supplied the flag appears right after the
subcommand; with no pid no sentinel flag is sent. -/
theorem claim6_witness :
    (run_dlllist envOk "m.raw" (some 4)).spawned =
      [["python", "vol.py", "-f", "m.raw", "windows.dlllist.DllList", "--pid", "4"]] ∧
    (run_handles envOk "m.raw" none).spawned =
      [["python", "vol.py", "-f", "m.raw", "windows.handles.Handles"]] := by
  have h := claim6_pid_flag_iff_supplied envOk "m.raw" rfl
  exact ⟨h.1 4, h.2.2.2⟩

/-- C7: for `run_malfind` with a (truthy) dump directory: when the normalized
directory does not exist, `os.makedirs` is attempted on it; a creation failure
returns `"Error creating dump directory: <str(e)>"` with no spawn; a creation
success (or an already-existing directory) runs the tool with `--dump-dir`;
and after an exit-code-zero invocation with a non-empty directory listing, the
one-line `Dumped <n> suspicious memory sections to <dir>` summary is appended
to the returned output. -/
theorem claim7_malfind_dump_directory (env : Env) (p d : String)
    (hf : env.isFile (env.normpath p) = true) (hd : d ≠ "") :
    (∀ e, env.isDir (env.normpath d) = false →
      env.makedirs (env.normpath d) = Except.error e →
      run_malfind env p (some d) =
        ⟨"Error creating dump directory: " ++ e, [], [env.normpath d]⟩) ∧
    (env.isDir (env.normpath d) = false →
      env.makedirs (env.normpath d) = Except.ok () →
      (run_malfind env p (some d)).spawned =
        [[env.VOLATILITY_PYTHON, env.VOLATILITY_SCRIPT, "-f", env.normpath p,
          "windows.malfind.Malfind", "--dump-dir", env.normpath d]] ∧
      (run_malfind env p (some d)).mkdirs = [env.normpath d]) ∧
    (∀ out err, (env.isDir (env.normpath d) = true ∨
        env.makedirs (env.normpath d) = Except.ok ()) →
      env.normpath d ≠ "" →
      env.pathExists (env.normpath d) = true →
      env.listdir (env.normpath d) ≠ [] →
      env.spawn [env.VOLATILITY_PYTHON, env.VOLATILITY_SCRIPT, "-f", env.normpath p,
          "windows.malfind.Malfind", "--dump-dir", env.normpath d] env.VOLATILITY_DIR =
        SpawnOutcome.completed 0 out err →
      (run_malfind env p (some d)).output =
        decodeUtf8Replace out ++ "\n\nDumped " ++
          toString (env.listdir (env.normpath d)).length ++
          " suspicious memory sections to " ++ env.normpath d) := by
  refine ⟨fun e hdir hmk => ?_, fun hdir hmk => ?_, fun out err hready hnd hex hls hs => ?_⟩
  · simp [run_malfind, hf, hd, hdir, hmk]
  · simp [run_malfind, hf, hd, hdir, hmk, malfindInvoke_spawned, malfindInvoke_mkdirs]
  · have hinv : (malfindInvoke env (env.normpath p) (env.normpath d) []).output =
        decodeUtf8Replace out ++ "\n\nDumped " ++
          toString (env.listdir (env.normpath d)).length ++
          " suspicious memory sections to " ++ env.normpath d := by
      unfold malfindInvoke
      simp [hnd, hex, hls, run_volatility, hs]
    have hinv1 : (malfindInvoke env (env.normpath p) (env.normpath d)
        [env.normpath d]).output =
        decodeUtf8Replace out ++ "\n\nDumped " ++
          toString (env.listdir (env.normpath d)).length ++
          " suspicious memory sections to " ++ env.normpath d := by
      unfold malfindInvoke
      simp [hnd, hex, hls, run_volatility, hs]
    rcases hready with hdir | hmk
    · simp [run_malfind, hf, hd, hdir, hinv]
    · by_cases hdir2 : env.isDir (env.normpath d) = true
      · simp [run_malfind, hf, hd, hdir2, hinv]
      · have hdir3 : env.isDir (env.normpath d) = false := by
          cases hcase : env.isDir (env.normpath d)
          · rfl
          · exact absurd hcase hdir2
        simp [run_malfind, hf, hd, hdir3, hmk, hinv1]

/-- C7 witness: in `envMalfind` the directory `dumps` is created (trace
`["dumps"]`), the tool runs with `--dump-dir`, and the two dumped files yield
the appended summary; in `envMkdirFail` creation fails and nothing is
spawned. -/
theorem claim7_witness :
    run_malfind envMalfind "m.raw" (some "dumps") =
      ⟨"ok\n\nDumped 2 suspicious memory sections to dumps",
        [["python", "vol.py", "-f", "m.raw", "windows.malfind.Malfind",
          "--dump-dir", "dumps"]], ["dumps"]⟩ ∧
    run_malfind envMkdirFail "m.raw" (some "dumps") =
      ⟨"Error creating dump directory: Permission denied", [], ["dumps"]⟩ := by
  constructor
  · have hout := (claim7_malfind_dump_directory envMalfind "m.raw" "dumps"
      rfl (by decide)).2.2 [111, 107] [] (Or.inr rfl) (by decide) rfl (by decide) rfl
    have hsp := (claim7_malfind_dump_directory envMalfind "m.raw" "dumps"
      rfl (by decide)).2.1 rfl rfl
    have : run_malfind envMalfind "m.raw" (some "dumps") =
        ⟨(run_malfind envMalfind "m.raw" (some "dumps")).output,
          (run_malfind envMalfind "m.raw" (some "dumps")).spawned,
          (run_malfind envMalfind "m.raw" (some "dumps")).mkdirs⟩ := rfl
    rw [this, hout, hsp.1, hsp.2]
    decide
  · exact (claim7_malfind_dump_directory envMkdirFail "m.raw" "dumps"
      rfl (by decide)).1 "Permission denied" rfl rfl

/-- Lines stripping to neither `"Plugins"` nor (relevantly) anything else are
skipped while capture is off. -/
theorem extractPluginsAux_skip_pre (pre rest : List String)
    (h : ∀ l ∈ pre, pyStrip l ≠ "Plugins") :
    extractPluginsAux (pre ++ rest) false = extractPluginsAux rest false := by
  induction pre with
  | nil => rfl
  | cons l ls ih =>
    have hl : pyStrip l ≠ "Plugins" := h l (List.mem_cons_self l ls)
    have hls : ∀ x ∈ ls, pyStrip x ≠ "Plugins" :=
      fun x hx => h x (List.mem_cons_of_mem l hx)
    simp only [List.cons_append]
    conv_lhs => unfold extractPluginsAux
    simp [hl, ih hls]

/-- While capture is on, each non-blank line is either skipped (when it strips
to the heading `"Plugins"`) or captured stripped, until the first blank line
stops everything. -/
theorem extractPluginsAux_capture (mid post : List String) (bl : String)
    (hmid : ∀ l ∈ mid, pyStrip l ≠ "") (hbl : pyStrip bl = "") :
    extractPluginsAux (mid ++ bl :: post) true =
      (mid.filter (fun l => pyStrip l ≠ "Plugins")).map pyStrip := by
  induction mid with
  | nil =>
    unfold extractPluginsAux
    have : pyStrip bl ≠ "Plugins" := by rw [hbl]; decide
    simp [this, hbl]
  | cons l ls ih =>
    have hl : pyStrip l ≠ "" := hmid l (List.mem_cons_self l ls)
    have hls : ∀ x ∈ ls, pyStrip x ≠ "" :=
      fun x hx => hmid x (List.mem_cons_of_mem l hx)
    by_cases hp : pyStrip l = "Plugins"
    · simp only [List.cons_append]
      unfold extractPluginsAux
      simp [hp, ih hls]
    · simp only [List.cons_append]
      unfold extractPluginsAux
      simp [hp, hl, ih hls]

/-- C8 counterexample: on the banner
`"Plugins\nalpha\nPlugins\nbeta\n\ngamma"` the line `"Plugins"` — a subsequent
line strictly before the first blank line — is not captured: the helper
returns `["alpha", "beta"]`, not the claimed capture of every pre-blank line
`["alpha", "Plugins", "beta"]`, and the resource renders those two names. -/
theorem claim8_counterexample :
    extractPlugins "Plugins\nalpha\nPlugins\nbeta\n\ngamma" = ["alpha", "beta"] ∧
    extractPlugins "Plugins\nalpha\nPlugins\nbeta\n\ngamma" ≠
      ["alpha", "Plugins", "beta"] ∧
    splitLines "Plugins\nalpha\nPlugins\nbeta\n\ngamma" =
      ["Plugins", "alpha", "Plugins", "beta", "", "gamma"] ∧
    (get_volatility_plugins envCex).output = jsonDumpsIndent2 ["alpha", "beta"] := by
  refine ⟨by decide, by decide, by decide, by decide⟩

/-- C8 (amended): lines before the first `"Plugins"`-stripping line are
ignored; from there, every line up to but not including the first blank line
is captured stripped, except that a line stripping to `"Plugins"` is skipped
(it merely re-enables capture); capture stops permanently at that blank line;
and the resource returns the JSON array (via `json.dumps(_, indent=2)`) of the
scraped names of the decoded `-h` output. -/
theorem claim8_plugin_scan_amended (pre mid post : List String) (hl bl : String)
    (hpre : ∀ l ∈ pre, pyStrip l ≠ "Plugins") (hhl : pyStrip hl = "Plugins")
    (hmid : ∀ l ∈ mid, pyStrip l ≠ "") (hbl : pyStrip bl = "") :
    extractPluginsAux (pre ++ hl :: (mid ++ bl :: post)) false =
      (mid.filter (fun l => pyStrip l ≠ "Plugins")).map pyStrip ∧
    (∀ env out err,
      env.spawn [env.VOLATILITY_PYTHON, env.VOLATILITY_SCRIPT, "-h"]
          env.VOLATILITY_DIR = SpawnOutcome.completed 0 out err →
      (get_volatility_plugins env).output =
        jsonDumpsIndent2 (extractPluginsAux (splitLines (decodeUtf8Replace out)) false)) := by
  constructor
  · rw [extractPluginsAux_skip_pre pre _ hpre]
    unfold extractPluginsAux
    simp only [hhl, if_pos]
    exact extractPluginsAux_capture mid post bl hmid hbl
  · intro env out err hs
    simp [get_volatility_plugins, extractPlugins, run_volatility, hs]

/-- C8 amended witness: a banner with heading, three capture-region lines (one
of them a repeated heading), a blank line, then trailing text, scrapes exactly
the stripped non-heading lines. -/
theorem claim8_witness :
    ((∀ l ∈ ["Volatility 3 Framework"], pyStrip l ≠ "Plugins") ∧
      pyStrip "  Plugins  " = "Plugins" ∧
      (∀ l ∈ ["  alpha ", "Plugins", " beta"], pyStrip l ≠ "") ∧
      pyStrip " " = "") ∧
    extractPluginsAux (["Volatility 3 Framework"] ++ "  Plugins  " ::
        (["  alpha ", "Plugins", " beta"] ++ " " :: ["gamma"])) false =
      ["alpha", "beta"] := by
  refine ⟨⟨by decide, by decide, by decide, by decide⟩, ?_⟩
  have h := (claim8_plugin_scan_amended ["Volatility 3 Framework"]
    ["  alpha ", "Plugins", " beta"] ["gamma"] "  Plugins  " " "
    (by decide) (by decide) (by decide) (by decide)).1
  rw [h]
  decide

/-- Two appends with distinct head characters are distinct strings. -/
theorem string_append_ne (a b x y : String) (c1 c2 : Char) (t1 t2 : List Char)
    (ha : a.data = c1 :: t1) (hb : b.data = c2 :: t2) (hne : c1 ≠ c2) :
    a ++ x ≠ b ++ y := by
  intro h
  have hd := congrArg String.data h
  rw [String.data_append, String.data_append, ha, hb] at hd
  simp only [List.cons_append, List.cons.injEq] at hd
  exact hne hd.1

/-- C9: a walked file contributes one report line exactly when its lowercased
name has an allow-listed suffix; the line carries the path joined with the
root and the size in mebibytes with two decimals; and an empty match list
makes `list_memory_dumps` return the "no files found" message rather than an
empty report. -/
theorem claim9_scanner_filter (env : Env) (sd : String)
    (hdir : env.isDir (env.normpath sd) = true) (hsd : sd ≠ "") :
    (∀ line, line ∈ memoryFilesOf env (env.normpath sd) ↔
      ∃ entry ∈ env.walk (env.normpath sd), ∃ file ∈ entry.files,
        matchesExt file = true ∧ line = dumpEntryLine env entry.root file) ∧
    (∀ file, matchesExt file = true ↔
      ∃ ext ∈ memory_extensions, ext.data.isSuffixOf (pyLower file).data = true) ∧
    (∀ root file, dumpEntryLine env root file =
      env.joinPath root file ++ " (Size: " ++
        formatSizeMB (env.getsize (env.joinPath root file)) ++ " MB)") ∧
    (memoryFilesOf env (env.normpath sd) = [] →
      list_memory_dumps env (some sd) =
        "No memory dump files found in " ++ env.normpath sd) ∧
    (memoryFilesOf env (env.normpath sd) ≠ [] →
      list_memory_dumps env (some sd) =
        "Found memory dump files:\n" ++
          String.intercalate "\n" (memoryFilesOf env (env.normpath sd))) := by
  refine ⟨fun line => ?_, fun file => ?_, fun root file => rfl, fun hempty => ?_,
    fun hnonempty => ?_⟩
  · simp only [memoryFilesOf, List.mem_flatMap, List.mem_filterMap]
    constructor
    · rintro ⟨entry, he, file, hf, hsome⟩
      by_cases hm : matchesExt file = true
      · rw [if_pos hm] at hsome
        exact ⟨entry, he, file, hf, hm, (Option.some.inj hsome).symm⟩
      · rw [if_neg hm] at hsome
        cases hsome
    · rintro ⟨entry, he, file, hf, hm, hline⟩
      exact ⟨entry, he, file, hf, by rw [if_pos hm, hline]⟩
  · simp [matchesExt, List.any_eq_true]
  · simp [list_memory_dumps, hsd, hdir, hempty]
  · simp [list_memory_dumps, hsd, hdir, hnonempty]

/-- C9 witness: walking a directory holding `a.dmp`, `b.txt`, `c.RAW` (one
mebibyte each) reports exactly the two matching files with `1.00` MB sizes and
excludes `b.txt`. -/
theorem claim9_witness :
    (memoryFilesOf envScan (envScan.normpath "d") ≠ []) ∧
    list_memory_dumps envScan (some "d") =
      "Found memory dump files:\nr/a.dmp (Size: 1.00 MB)\nr/c.RAW (Size: 1.00 MB)" ∧
    matchesExt "b.txt" = false := by
  refine ⟨by decide, ?_, by decide⟩
  have h := (claim9_scanner_filter envScan "d" rfl (by decide)).2.2.2.2 (by decide)
  rw [h]
  decide

/-- C10: a `None` or empty search directory falls back to the current working
directory, and the directory-not-found error is produced exactly when the
resolved, normalized directory is not an existing directory. -/
theorem claim10_default_search_dir (env : Env) :
    list_memory_dumps env none = list_memory_dumps env (some "") ∧
    list_memory_dumps env none = list_memory_dumps env (some env.getcwd) ∧
    (∀ s, s ≠ "" → env.isDir (env.normpath s) = false →
      list_memory_dumps env (some s) =
        "Error: Directory not found at " ++ env.normpath s) ∧
    (env.isDir (env.normpath env.getcwd) = false →
      list_memory_dumps env none =
        "Error: Directory not found at " ++ env.normpath env.getcwd) ∧
    (∀ s, s ≠ "" → env.isDir (env.normpath s) = true →
      list_memory_dumps env (some s) ≠
        "Error: Directory not found at " ++ env.normpath s) := by
  refine ⟨rfl, ?_, fun s hs hdir => ?_, fun hdir => ?_, fun s hs hdir => ?_⟩
  · by_cases hc : env.getcwd = "" <;> simp [list_memory_dumps, hc]
  · simp [list_memory_dumps, hs, hdir]
  · simp [list_memory_dumps, hdir]
  · simp only [list_memory_dumps, hdir, Bool.true_eq_false, if_neg hs, if_false]
    split
    · exact string_append_ne "No memory dump files found in "
        "Error: Directory not found at " _ _ 'N' 'E'
        ("o memory dump files found in ").data
        ("rror: Directory not found at ").data (by decide) (by decide) (by decide)
    · exact string_append_ne "Found memory dump files:\n"
        "Error: Directory not found at " _ _ 'F' 'E'
        ("ound memory dump files:\n").data
        ("rror: Directory not found at ").data (by decide) (by decide) (by decide)

/-- C10 witness: in an environment with no directories, an explicit missing
directory and the defaulted current working directory both yield the
not-found error, while an existing directory never does. -/
theorem claim10_witness :
    list_memory_dumps envNoDir (some "x") = "Error: Directory not found at x" ∧
    list_memory_dumps envNoDir none = "Error: Directory not found at cwd" ∧
    list_memory_dumps envScan (some "d") ≠ "Error: Directory not found at d" := by
  refine ⟨(claim10_default_search_dir envNoDir).2.2.1 "x" (by decide) rfl,
    (claim10_default_search_dir envNoDir).2.2.2.1 rfl,
    (claim10_default_search_dir envScan).2.2.2.2 "d" (by decide) rfl⟩

end VolatilityMCP
